import Mathlib

/-!
Verification of the core bookkeeping of the expecto-patronum trading agent:
the Position Ledger (`src/core/portfolio.py`, class `Portfolio`), the Risk
Gate (`src/core/risk_manager.py`, class `RiskManager`) and the Command
Dispatcher (`src/core/trading_engine.py`, class `TradingEngine`).

Embedding conventions:
* Monetary quantities (cash, prices, amounts, P&L) are exact rationals `ℚ`;
  the Python source uses floats but every property under scrutiny is stated
  in exact decimal arithmetic.
* The Python `uuid` trade identifiers are modelled by a fresh-id counter
  `next_id` threaded through the ledger state; the only property used is
  freshness of the returned identifier.
* Entry/exit timestamps (`datetime.now()`) are elided: no verified property
  mentions them.
* Database-manager calls (`save_position`, `close_position`, `log_trade`,
  `reset_portfolio`) are external persistence side effects; per the source
  they never change the in-memory ledger state, so they are dropped.
* Python methods mutate `self`; each is modelled as a state-passing function
  returning `result × new state`.
* Result dictionaries `{'success': ..., 'message': ...}` are modelled with
  the `success` flag kept verbatim and the message replaced by an inductive
  tag recording which branch of the source produced it (the f-string texts
  themselves carry no verified content).
-/

namespace ExpectoPatronum

/-- Position side, the `'type'` field of a position dict (`'LONG'`/`'SHORT'`). -/
inductive PositionType
  | LONG
  | SHORT
deriving DecidableEq

/-- Position status, the `'status'` field (`'OPEN'`/`'CLOSED'`). -/
inductive PositionStatus
  | OPEN
  | CLOSED
deriving DecidableEq

/-- A position dict as built by `Portfolio.open_long_position` /
`open_short_position` and mutated by `close_positions`
(portfolio.py lines 69-76, 126-133, 206-210). `exit_price` and `pnl`
are absent (`none`) until the position is closed. -/
structure Position where
  trade_id : Nat
  ptype : PositionType
  amount : ℚ
  entry_price : ℚ
  status : PositionStatus
  exit_price : Option ℚ
  pnl : Option ℚ
deriving DecidableEq

/-- The `Portfolio.stats` dict (portfolio.py lines 20-26). -/
structure Stats where
  total_pnl : ℚ
  total_pnl_percent : ℚ
  winning_trades : Nat
  losing_trades : Nat
  total_trades : Nat
deriving DecidableEq

/-- The all-zero stats dict used by `__init__` and `reset_portfolio`. -/
def Stats.zero : Stats := ⟨0, 0, 0, 0, 0⟩

/-- The `Portfolio` object state: `positions` is the `symbol -> list` dict
(modelled as an association list in insertion order), plus `cash`,
`initial_cash` and `stats` (portfolio.py lines 13-26). `next_id` models the
uuid generator. -/
structure Portfolio where
  positions : List (String × List Position)
  cash : ℚ
  initial_cash : ℚ
  stats : Stats
  next_id : Nat
deriving DecidableEq

/-- The fresh `Portfolio(db)` state: starting cash 10000.0, no positions,
zero stats (portfolio.py lines 15-26, with an empty database). -/
def initialPortfolio : Portfolio :=
  { positions := [], cash := 10000, initial_cash := 10000,
    stats := Stats.zero, next_id := 0 }

/-- The fixed 10% short margin rate (`0.1` hard-coded at portfolio.py
lines 115 and 201 and risk_manager.py line 71). -/
def MARGIN_RATE : ℚ := 1 / 10

/-- `self.positions[symbol].append(position)` preceded by
`if symbol not in self.positions: self.positions[symbol] = []`
(portfolio.py lines 79-81 / 136-138). -/
def addPosition : List (String × List Position) → String → Position →
    List (String × List Position)
  | [], sym, pos => [(sym, [pos])]
  | (s, l) :: rest, sym, pos =>
      if s = sym then (s, l ++ [pos]) :: rest
      else (s, l) :: addPosition rest sym pos

/-- Replace the list stored under a symbol that is present in the dict. -/
def setSymbol : List (String × List Position) → String → List Position →
    List (String × List Position)
  | [], _, _ => []
  | (s, l) :: rest, sym, newl =>
      if s = sym then (s, newl) :: rest
      else (s, l) :: setSymbol rest sym newl

/-- The structured-failure branches of the Ledger (spec taxonomy
`InsufficientFunds` / `InsufficientMargin` / `NoMatchingPositions`; the
source has two distinct no-match messages, portfolio.py lines 171-175 and
187-191, both of the `NoMatchingPositions` kind). -/
inductive LedgerError
  | InsufficientFunds
  | InsufficientMargin
  | NoPositionsForSymbol
  | NoMatchingOfType
deriving DecidableEq

/-- Result of `open_long_position` / `open_short_position`: the success dict
carries the new `trade_id`. -/
inductive OpenResult
  | opened (trade_id : Nat)
  | failed (e : LedgerError)
deriving DecidableEq

/-- The `'success'` field of an open result. -/
def OpenResult.success : OpenResult → Bool
  | .opened _ => true
  | .failed _ => false

/-- `Portfolio.open_long_position` (portfolio.py lines 54-109): affordability
check `required_cash > self.cash`, then append an OPEN LONG position and
debit cash by `amount * price`. -/
def open_long_position (pf : Portfolio) (symbol : String) (amount price : ℚ) :
    OpenResult × Portfolio :=
  let required_cash := amount * price
  if required_cash > pf.cash then
    (.failed .InsufficientFunds, pf)
  else
    let pos : Position :=
      ⟨pf.next_id, .LONG, amount, price, .OPEN, none, none⟩
    (.opened pf.next_id,
      { pf with
          positions := addPosition pf.positions symbol pos,
          cash := pf.cash - required_cash,
          next_id := pf.next_id + 1 })

/-- `Portfolio.open_short_position` (portfolio.py lines 111-166): margin
check `margin_required = amount * price * 0.1 > self.cash`, then append an
OPEN SHORT position and debit cash by the margin. -/
def open_short_position (pf : Portfolio) (symbol : String) (amount price : ℚ) :
    OpenResult × Portfolio :=
  let margin_required := amount * price * MARGIN_RATE
  if margin_required > pf.cash then
    (.failed .InsufficientMargin, pf)
  else
    let pos : Position :=
      ⟨pf.next_id, .SHORT, amount, price, .OPEN, none, none⟩
    (.opened pf.next_id,
      { pf with
          positions := addPosition pf.positions symbol pos,
          cash := pf.cash - margin_required,
          next_id := pf.next_id + 1 })

/-- The `position_type` filter argument of `close_positions`
(`'ALL'`/`'LONG'`/`'SHORT'`, portfolio.py line 168). -/
inductive TypeFilter
  | ALL
  | LONG
  | SHORT
deriving DecidableEq

/-- `position_type == 'ALL' or position['type'] == position_type`
(portfolio.py line 184). -/
def TypeFilter.matches : TypeFilter → PositionType → Bool
  | .ALL, _ => true
  | .LONG, t => t == .LONG
  | .SHORT, t => t == .SHORT

/-- The selection predicate of portfolio.py line 184:
`position['status'] == 'OPEN' and (filter matches)`. -/
def shouldClose (filt : TypeFilter) (p : Position) : Bool :=
  p.status == .OPEN && filt.matches p.ptype

/-- Realized P&L of one position closed at `current_price`
(portfolio.py lines 196-200). -/
def pnlOf (p : Position) (current_price : ℚ) : ℚ :=
  match p.ptype with
  | .LONG => (current_price - p.entry_price) * p.amount
  | .SHORT => (p.entry_price - current_price) * p.amount

/-- Cash credited back for one position closed at `current_price`
(portfolio.py lines 198 and 201): full proceeds for a LONG, only the
original 10% margin for a SHORT. -/
def cashReturnOf (p : Position) (current_price : ℚ) : ℚ :=
  match p.ptype with
  | .LONG => p.amount * current_price
  | .SHORT => p.amount * p.entry_price * MARGIN_RATE

/-- The in-place mutation of a closed position
(portfolio.py lines 206-210). -/
def closeOne (current_price : ℚ) (p : Position) : Position :=
  { p with
      status := .CLOSED,
      exit_price := some current_price,
      pnl := some (pnlOf p current_price) }

/-- One entry of the `closed_trades` list returned by `close_positions`
(portfolio.py lines 220-227). -/
structure ClosedTrade where
  trade_id : Nat
  ptype : PositionType
  amount : ℚ
  entry_price : ℚ
  exit_price : ℚ
  pnl : ℚ
deriving DecidableEq

/-- Result of `close_positions`: the success dict carries `closed_trades`,
`total_amount` and `total_pnl`. -/
inductive CloseResult
  | closed (closed_trades : List ClosedTrade) (total_amount total_pnl : ℚ)
  | failed (e : LedgerError)
deriving DecidableEq

/-- The `'success'` field of a close result. -/
def CloseResult.success : CloseResult → Bool
  | .closed _ _ _ => true
  | .failed _ => false

/-- `Portfolio.close_positions` (portfolio.py lines 168-258).
Mirrors the source: fail if the symbol has no (possibly empty) entry; select
the OPEN positions matching the filter; fail if none; otherwise close each
selected position in place, credit the cash returns, and update the stats
(trade/win/loss counters per position, then `total_pnl` and
`total_pnl_percent = total_pnl / initial_cash * 100` once at the end). -/
def close_positions (pf : Portfolio) (symbol : String)
    (position_type : TypeFilter) (current_price : ℚ) :
    CloseResult × Portfolio :=
  match List.lookup symbol pf.positions with
  | none => (.failed .NoPositionsForSymbol, pf)
  | some l =>
    if l.isEmpty then (.failed .NoPositionsForSymbol, pf)
    else
      let positions_to_close := l.filter (shouldClose position_type)
      if positions_to_close.isEmpty then (.failed .NoMatchingOfType, pf)
      else
        let closed_trades := positions_to_close.map fun p =>
          ClosedTrade.mk p.trade_id p.ptype p.amount p.entry_price
            current_price (pnlOf p current_price)
        let total_amount := (positions_to_close.map fun p => p.amount).sum
        let total_pnl :=
          (positions_to_close.map fun p => pnlOf p current_price).sum
        let cash_return :=
          (positions_to_close.map fun p => cashReturnOf p current_price).sum
        let newList := l.map fun p =>
          if shouldClose position_type p then closeOne current_price p else p
        let wins := (positions_to_close.filter fun p =>
          decide (0 < pnlOf p current_price)).length
        let losses := (positions_to_close.filter fun p =>
          decide (pnlOf p current_price ≤ 0)).length
        let new_total_pnl := pf.stats.total_pnl + total_pnl
        (.closed closed_trades total_amount total_pnl,
          { pf with
              positions := setSymbol pf.positions symbol newList,
              cash := pf.cash + cash_return,
              stats :=
                { total_pnl := new_total_pnl,
                  total_pnl_percent := new_total_pnl / pf.initial_cash * 100,
                  winning_trades := pf.stats.winning_trades + wins,
                  losing_trades := pf.stats.losing_trades + losses,
                  total_trades :=
                    pf.stats.total_trades + positions_to_close.length } })

/-- The value dict returned by `get_portfolio_value`
(portfolio.py lines 283-289, sans the per-symbol breakdown). -/
structure ValueResult where
  total_value : ℚ
  cash : ℚ
  total_pnl : ℚ
  total_pnl_percent : ℚ
deriving DecidableEq

/-- The inner loop of `get_portfolio_value` for one symbol's position list
(portfolio.py lines 271-278): OPEN LONGs contribute `amount * price`, OPEN
SHORTs contribute the unrealized P&L `(entry_price - price) * amount`. -/
def symbolValue (current_price : ℚ) (l : List Position) : ℚ :=
  l.foldl
    (fun acc p =>
      if p.status == .OPEN then
        match p.ptype with
        | .LONG => acc + p.amount * current_price
        | .SHORT => acc + (p.entry_price - current_price) * p.amount
      else acc)
    0

/-- `Portfolio.get_portfolio_value` (portfolio.py lines 260-299): starts
from `cash` and adds `symbolValue` for every symbol present in the
`current_prices` mapping (symbols without a quote are skipped). The method
only reads the state, so the state is returned unchanged. -/
def get_portfolio_value (pf : Portfolio) (current_prices : List (String × ℚ)) :
    ValueResult × Portfolio :=
  let total_value := pf.positions.foldl
    (fun acc e =>
      match List.lookup e.1 current_prices with
      | some cp => acc + symbolValue cp e.2
      | none => acc)
    pf.cash
  (⟨total_value, pf.cash, pf.stats.total_pnl, pf.stats.total_pnl_percent⟩, pf)

/-- `Portfolio.reset_portfolio` (portfolio.py lines 329-341): empty the
positions dict, restore `cash := initial_cash`, zero the stats. -/
def reset_portfolio (pf : Portfolio) : Portfolio :=
  { pf with positions := [], cash := pf.initial_cash, stats := Stats.zero }

/-! ### Risk Gate (`src/core/risk_manager.py`) -/

/-- Python `str.lower()` as used on symbol names (`symbol.lower()`,
risk_manager.py line 52), written structurally so that it reduces on
concrete strings. -/
def lowerString (s : String) : String := ⟨s.data.map Char.toLower⟩

/-- One entry of `RiskManager.symbol_limits`
(`{'max_amount': ..., 'max_value': ...}`, risk_manager.py lines 23-32). -/
structure SymbolLimits where
  max_amount : ℚ
  max_value : ℚ
deriving DecidableEq

/-- Which branch of `check_position_limit` produced the returned reason
string (risk_manager.py lines 55-89). `RiskCheckError` is the
`except Exception` branch: for a SHORT with zero notional the leverage line
`position_value / (position_value * 0.1)` raises `ZeroDivisionError`, which
is caught and turned into `allowed: False`. -/
inductive RiskReason
  | AmountExceedsLimit
  | ValueExceedsLimit
  | LeverageExceedsLimit
  | RiskCheckError
  | Allowed
deriving DecidableEq

/-- The `{'allowed': ..., 'reason': ...}` dict returned by the risk
checks. -/
structure RiskCheck where
  allowed : Bool
  reason : RiskReason
deriving DecidableEq

/-- The `RiskManager` state (risk_manager.py lines 11-32). -/
structure RiskManager where
  max_position_size : ℚ
  max_total_exposure : ℚ
  max_daily_loss : ℚ
  max_leverage : ℚ
  symbol_limits : List (String × SymbolLimits)
  default_limits : SymbolLimits
  daily_pnl : ℚ
deriving DecidableEq

/-- The limits set by `RiskManager.__init__` (risk_manager.py lines 13-32):
20% max position size, 80% max exposure, 10% max daily loss, 3.0 max
leverage, five per-symbol limit entries and the default
`{'max_amount': 100.0, 'max_value': 10000}`. -/
def defaultRiskManager : RiskManager :=
  { max_position_size := 1 / 5,
    max_total_exposure := 4 / 5,
    max_daily_loss := 1 / 10,
    max_leverage := 3,
    symbol_limits :=
      [("bitcoin", ⟨1, 50000⟩), ("ethereum", ⟨10, 30000⟩),
       ("cardano", ⟨1000, 20000⟩), ("solana", ⟨100, 25000⟩),
       ("polkadot", ⟨500, 15000⟩)],
    default_limits := ⟨100, 10000⟩,
    daily_pnl := 0 }

/-- `RiskManager.check_position_limit` (risk_manager.py lines 37-89):
per-symbol limits via `symbol.lower()` with fallback to the defaults; deny
on `amount > max_amount`, then on `amount * price > max_value`; for a SHORT
compute `leverage = position_value / (position_value * 0.1)` — when the
denominator is zero Python raises `ZeroDivisionError`, caught by the
`except` branch which returns `allowed: False` with a risk-check-error
reason — and deny when `leverage > max_leverage`. Total by construction:
no input makes it raise to its caller. -/
def check_position_limit (rm : RiskManager) (symbol : String)
    (position_type : PositionType) (amount price : ℚ) : RiskCheck :=
  let limits :=
    (List.lookup (lowerString symbol) rm.symbol_limits).getD rm.default_limits
  if amount > limits.max_amount then ⟨false, .AmountExceedsLimit⟩
  else
    let position_value := amount * price
    if position_value > limits.max_value then ⟨false, .ValueExceedsLimit⟩
    else if position_type == .SHORT then
      if position_value * MARGIN_RATE = 0 then ⟨false, .RiskCheckError⟩
      else
        let leverage := position_value / (position_value * MARGIN_RATE)
        if leverage > rm.max_leverage then ⟨false, .LeverageExceedsLimit⟩
        else ⟨true, .Allowed⟩
    else ⟨true, .Allowed⟩

/-! ### Command Dispatcher (`src/core/trading_engine.py`) -/

/-- The spell vocabulary, the keys of `TradingEngine.spells`
(trading_engine.py lines 25-33). -/
inductive Spell
  | EXPECTO_LONG
  | EXPECTO_SHORT
  | FINITE_INCANTATEM
  | ALOHOMORA
  | COLLOPORTUS
  | LUMOS
  | NOX
deriving DecidableEq

/-- The `spell_name in self.spells` dictionary lookup
(trading_engine.py line 85). -/
def spellOfName (s : String) : Option Spell :=
  if s = "EXPECTO_LONG" then some .EXPECTO_LONG
  else if s = "EXPECTO_SHORT" then some .EXPECTO_SHORT
  else if s = "FINITE_INCANTATEM" then some .FINITE_INCANTATEM
  else if s = "ALOHOMORA" then some .ALOHOMORA
  else if s = "COLLOPORTUS" then some .COLLOPORTUS
  else if s = "LUMOS" then some .LUMOS
  else if s = "NOX" then some .NOX
  else none

/-- Which branch of `cast_spell` / the spell handlers produced the result
dict (trading_engine.py lines 78-282). The `except Exception` branches are
unreachable in the embedding because every handler is total. -/
inductive SpellOutcome
  | EngineInactive
  | UnknownSpell
  | PriceUnavailable
  | RiskBlocked (reason : RiskReason)
  | LongOpened (trade_id : Nat)
  | LongFailed (e : LedgerError)
  | ShortOpened (trade_id : Nat)
  | ShortFailed (e : LedgerError)
  | PositionsClosed (closed_trades : List ClosedTrade)
  | CloseFailed (e : LedgerError)
  | LumosActivated
  | NoxDeactivated
deriving DecidableEq

/-- The uniform `{'success': ..., 'message': ..., ...}` result of
`cast_spell`. -/
structure SpellResult where
  success : Bool
  outcome : SpellOutcome
deriving DecidableEq

/-- The `TradingEngine` state: the `running` flag, the owned collaborators
whose state the core mutates (portfolio, risk manager), and the
`session_stats` counters `total_trades` / `successful_trades` /
`failed_trades` (trading_engine.py lines 15-42). -/
structure TradingEngine where
  running : Bool
  portfolio : Portfolio
  risk_manager : RiskManager
  total_trades : Nat
  successful_trades : Nat
  failed_trades : Nat
deriving DecidableEq

/-- A freshly constructed engine: `running = False`, fresh portfolio,
default risk limits, zero session counters. -/
def initialEngine : TradingEngine :=
  ⟨false, initialPortfolio, defaultRiskManager, 0, 0, 0⟩

/-- `TradingEngine.start` (trading_engine.py lines 47-54): sets
`running := True`. -/
def TradingEngine.start (eng : TradingEngine) : TradingEngine :=
  { eng with running := true }

/-- `TradingEngine.stop` (trading_engine.py lines 56-63): sets
`running := False`. -/
def TradingEngine.stop (eng : TradingEngine) : TradingEngine :=
  { eng with running := false }

/-- `TradingEngine._cast_expecto_long` (trading_engine.py lines 122-166):
risk check first; if blocked the ledger is untouched; otherwise run
`open_long_position` and propagate its success/failure. -/
def cast_expecto_long (eng : TradingEngine) (symbol : String)
    (amount price : ℚ) : SpellResult × TradingEngine :=
  let risk_check := check_position_limit eng.risk_manager symbol .LONG amount price
  if !risk_check.allowed then
    (⟨false, .RiskBlocked risk_check.reason⟩, eng)
  else
    match open_long_position eng.portfolio symbol amount price with
    | (.opened tid, pf) =>
        (⟨true, .LongOpened tid⟩, { eng with portfolio := pf })
    | (.failed e, pf) =>
        (⟨false, .LongFailed e⟩, { eng with portfolio := pf })

/-- `TradingEngine._cast_expecto_short` (trading_engine.py lines 168-212):
risk check first; if blocked the ledger is untouched; otherwise run
`open_short_position` and propagate its success/failure. -/
def cast_expecto_short (eng : TradingEngine) (symbol : String)
    (amount price : ℚ) : SpellResult × TradingEngine :=
  let risk_check := check_position_limit eng.risk_manager symbol .SHORT amount price
  if !risk_check.allowed then
    (⟨false, .RiskBlocked risk_check.reason⟩, eng)
  else
    match open_short_position eng.portfolio symbol amount price with
    | (.opened tid, pf) =>
        (⟨true, .ShortOpened tid⟩, { eng with portfolio := pf })
    | (.failed e, pf) =>
        (⟨false, .ShortFailed e⟩, { eng with portfolio := pf })

/-- `TradingEngine._cast_finite_incantatem` (trading_engine.py lines
214-252): delegate to `close_positions` and propagate the result. -/
def cast_finite_incantatem (eng : TradingEngine) (symbol : String)
    (price : ℚ) (position_type : TypeFilter) : SpellResult × TradingEngine :=
  match close_positions eng.portfolio symbol position_type price with
  | (.closed trades _ _, pf) =>
      (⟨true, .PositionsClosed trades⟩, { eng with portfolio := pf })
  | (.failed e, pf) =>
      (⟨false, .CloseFailed e⟩, { eng with portfolio := pf })

/-- `TradingEngine._cast_lumos` (trading_engine.py lines 266-273): call
`start()` and report success. -/
def cast_lumos (eng : TradingEngine) : SpellResult × TradingEngine :=
  (⟨true, .LumosActivated⟩, eng.start)

/-- `TradingEngine._cast_nox` (trading_engine.py lines 275-282): call
`stop()` and report success. -/
def cast_nox (eng : TradingEngine) : SpellResult × TradingEngine :=
  (⟨true, .NoxDeactivated⟩, eng.stop)

/-- The `self.spells[spell_name](symbol, amount, current_price, **kwargs)`
dispatch (trading_engine.py line 103). `kw` models the optional
`position_type` keyword argument: `FINITE_INCANTATEM` / `COLLOPORTUS`
default it to ALL (line 217), `ALOHOMORA` defaults it to LONG and opens a
short for any non-LONG value (lines 256-260). -/
def runSpell (spell : Spell) (eng : TradingEngine) (symbol : String)
    (amount price : ℚ) (kw : Option TypeFilter) : SpellResult × TradingEngine :=
  match spell with
  | .EXPECTO_LONG => cast_expecto_long eng symbol amount price
  | .EXPECTO_SHORT => cast_expecto_short eng symbol amount price
  | .FINITE_INCANTATEM => cast_finite_incantatem eng symbol price (kw.getD .ALL)
  | .ALOHOMORA =>
      if kw.getD .LONG == .LONG then cast_expecto_long eng symbol amount price
      else cast_expecto_short eng symbol amount price
  | .COLLOPORTUS => cast_finite_incantatem eng symbol price (kw.getD .ALL)
  | .LUMOS => cast_lumos eng
  | .NOX => cast_nox eng

/-- The Price Feed collaborator `market_data.get_price(symbol)`
(spec: `get_price(symbol) -> price | unavailable`), modelled as a lookup in
a quote table supplied per call. -/
def get_price (prices : List (String × ℚ)) (symbol : String) : Option ℚ :=
  List.lookup symbol prices

/-- `TradingEngine.cast_spell` (trading_engine.py lines 65-120), the single
dispatch entry point. In source order: reject anything while
`not self.running` (including LUMOS); reject unknown spell names; fetch the
price and reject on `not current_price` (None or a zero price, both falsy);
run the handler; then update the session counters — the three early-return
failure paths above skip the counter update. -/
def cast_spell (eng : TradingEngine) (prices : List (String × ℚ))
    (spell_name symbol : String) (amount : ℚ) (kw : Option TypeFilter) :
    SpellResult × TradingEngine :=
  if !eng.running then (⟨false, .EngineInactive⟩, eng)
  else
    match spellOfName spell_name with
    | none => (⟨false, .UnknownSpell⟩, eng)
    | some spell =>
      match get_price prices symbol with
      | none => (⟨false, .PriceUnavailable⟩, eng)
      | some current_price =>
        if current_price = 0 then (⟨false, .PriceUnavailable⟩, eng)
        else
          let res := runSpell spell eng symbol amount current_price kw
          (res.1,
            { res.2 with
                total_trades := res.2.total_trades + 1,
                successful_trades :=
                  res.2.successful_trades + (if res.1.success then 1 else 0),
                failed_trades :=
                  res.2.failed_trades + (if res.1.success then 0 else 1) })

/-! ### Operation sequences over the ledger (for the reset round trip) -/

/-- A ledger operation, for quantifying over arbitrary call sequences. -/
inductive LedgerOp
  | openLong (symbol : String) (amount price : ℚ)
  | openShort (symbol : String) (amount price : ℚ)
  | close (symbol : String) (filt : TypeFilter) (price : ℚ)

/-- Apply one ledger operation, keeping only the state. -/
def applyOp (pf : Portfolio) : LedgerOp → Portfolio
  | .openLong s a p => (open_long_position pf s a p).2
  | .openShort s a p => (open_short_position pf s a p).2
  | .close s f p => (close_positions pf s f p).2

/-- Apply a sequence of ledger operations. -/
def applyOps (pf : Portfolio) (ops : List LedgerOp) : Portfolio :=
  ops.foldl applyOp pf

/-! ### Helper lemmas -/

lemma isEmpty_false_of_ne {α : Type} {l : List α} (h : l ≠ []) :
    l.isEmpty = false := by
  cases l with
  | nil => exact absurd rfl h
  | cons a t => rfl

lemma lookup_addPosition (ps : List (String × List Position)) (sym : String)
    (pos : Position) :
    List.lookup sym (addPosition ps sym pos) =
      some ((List.lookup sym ps).getD [] ++ [pos]) := by
  induction ps with
  | nil => simp [addPosition, List.lookup]
  | cons e rest ih =>
    obtain ⟨s, l⟩ := e
    by_cases h : s = sym
    · subst h
      simp [addPosition, List.lookup]
    · have hb : (sym == s) = false := by
        simp [Ne.symm h]
      simp [addPosition, List.lookup, h, hb, ih]

lemma lookup_setSymbol (ps : List (String × List Position)) (sym : String)
    (l newl : List Position) (h : List.lookup sym ps = some l) :
    List.lookup sym (setSymbol ps sym newl) = some newl := by
  induction ps with
  | nil => simp [List.lookup] at h
  | cons e rest ih =>
    obtain ⟨s, l0⟩ := e
    by_cases hs : s = sym
    · subst hs
      simp [setSymbol, List.lookup]
    · have hb : (sym == s) = false := by
        simp [Ne.symm hs]
      simp [List.lookup, hb] at h
      simp [setSymbol, List.lookup, hs, hb, ih h]

lemma shouldClose_closeOne (filt : TypeFilter) (price : ℚ) (p : Position) :
    shouldClose filt (closeOne price p) = false := by
  simp [shouldClose, closeOne]

lemma filter_shouldClose_after_close (filt : TypeFilter) (price : ℚ)
    (l : List Position) :
    (l.map fun p => if shouldClose filt p then closeOne price p else p).filter
      (shouldClose filt) = [] := by
  induction l with
  | nil => rfl
  | cons p rest ih =>
    by_cases h : shouldClose filt p
    · simp [h, ih, shouldClose_closeOne]
    · simp [h, ih]

lemma applyOp_initial_cash (pf : Portfolio) (op : LedgerOp) :
    (applyOp pf op).initial_cash = pf.initial_cash := by
  cases op with
  | openLong s a p =>
    simp only [applyOp, open_long_position]
    split <;> rfl
  | openShort s a p =>
    simp only [applyOp, open_short_position]
    split <;> rfl
  | close s f p =>
    simp only [applyOp, close_positions]
    split
    · rfl
    · split
      · rfl
      · split <;> rfl

lemma applyOps_initial_cash (pf : Portfolio) (ops : List LedgerOp) :
    (applyOps pf ops).initial_cash = pf.initial_cash := by
  induction ops generalizing pf with
  | nil => rfl
  | cons op rest ih =>
    simpa [applyOps, List.foldl] using
      (ih (applyOp pf op)).trans (applyOp_initial_cash pf op)

/-! ### Claim theorems -/

/-- C3: `open_long(symbol, quantity, price)` succeeds exactly on
`quantity*price <= cash`: on success it returns the fresh position
identifier, debits cash by exactly `quantity*price`, and appends a new OPEN
LONG position with that quantity and entry price to the symbol's list; on
`quantity*price > cash` it returns the `InsufficientFunds` structured
failure and the whole ledger state is unchanged. -/
theorem C3_open_long (pf : Portfolio) (symbol : String) (q p : ℚ) :
    (q * p ≤ pf.cash →
      (open_long_position pf symbol q p).1 = OpenResult.opened pf.next_id ∧
      (open_long_position pf symbol q p).2.cash = pf.cash - q * p ∧
      List.lookup symbol (open_long_position pf symbol q p).2.positions =
        some ((List.lookup symbol pf.positions).getD [] ++
          [⟨pf.next_id, PositionType.LONG, q, p, PositionStatus.OPEN, none, none⟩])) ∧
    (pf.cash < q * p →
      (open_long_position pf symbol q p).1 =
        OpenResult.failed LedgerError.InsufficientFunds ∧
      (open_long_position pf symbol q p).2 = pf) := by
  constructor
  · intro h
    have hne : ¬ (q * p > pf.cash) := not_lt.mpr h
    simp [open_long_position, hne, lookup_addPosition]
  · intro h
    simp [open_long_position, h]

/-- Witness for C3 at concrete inputs: buying 1 unit at 2000 from the fresh
10000-cash ledger succeeds, while buying 20000 at 1 fails with
`InsufficientFunds`. -/
theorem C3_open_long_witness :
    (open_long_position initialPortfolio "bitcoin" 1 2000).1 =
      OpenResult.opened 0 ∧
    (open_long_position initialPortfolio "bitcoin" 20000 1).1 =
      OpenResult.failed LedgerError.InsufficientFunds :=
  ⟨((C3_open_long initialPortfolio "bitcoin" 1 2000).1
      (by norm_num [initialPortfolio])).1,
   ((C3_open_long initialPortfolio "bitcoin" 20000 1).2
      (by norm_num [initialPortfolio])).1⟩

/-- C4: `open_short(symbol, quantity, price)` succeeds exactly on
`quantity*price*0.10 <= cash`: on success it debits cash by exactly the
margin `quantity*price*0.10` and appends a new OPEN SHORT position with
that quantity and entry price; otherwise it returns the
`InsufficientMargin` structured failure and the ledger state is
unchanged. -/
theorem C4_open_short (pf : Portfolio) (symbol : String) (q p : ℚ) :
    (q * p * (1 / 10) ≤ pf.cash →
      (open_short_position pf symbol q p).1 = OpenResult.opened pf.next_id ∧
      (open_short_position pf symbol q p).2.cash = pf.cash - q * p * (1 / 10) ∧
      List.lookup symbol (open_short_position pf symbol q p).2.positions =
        some ((List.lookup symbol pf.positions).getD [] ++
          [⟨pf.next_id, PositionType.SHORT, q, p, PositionStatus.OPEN, none, none⟩])) ∧
    (pf.cash < q * p * (1 / 10) →
      (open_short_position pf symbol q p).1 =
        OpenResult.failed LedgerError.InsufficientMargin ∧
      (open_short_position pf symbol q p).2 = pf) := by
  constructor
  · intro h
    have hne : ¬ (q * p * MARGIN_RATE > pf.cash) := not_lt.mpr h
    unfold open_short_position
    rw [if_neg hne]
    exact ⟨rfl, rfl, lookup_addPosition pf.positions symbol _⟩
  · intro h
    have hlt : q * p * MARGIN_RATE > pf.cash := h
    unfold open_short_position
    rw [if_pos hlt]
    exact ⟨rfl, rfl⟩

/-- Witness for C4 at concrete inputs: shorting 1 unit at 50000 needs margin
5000 and succeeds on the fresh ledger; shorting 100 units at 2000 needs
margin 20000 and fails with `InsufficientMargin`. -/
theorem C4_open_short_witness :
    (open_short_position initialPortfolio "bitcoin" 1 50000).1 =
      OpenResult.opened 0 ∧
    (open_short_position initialPortfolio "bitcoin" 100 2000).1 =
      OpenResult.failed LedgerError.InsufficientMargin :=
  ⟨((C4_open_short initialPortfolio "bitcoin" 1 50000).1
      (by norm_num [initialPortfolio])).1,
   ((C4_open_short initialPortfolio "bitcoin" 100 2000).2
      (by norm_num [initialPortfolio])).1⟩

/-- C9: after any sequence of open-long / open-short / close operations,
`reset()` restores cash exactly to the initial cash value of the starting
state, leaves no positions at all, and zeroes every aggregate stat. -/
theorem C9_reset_round_trip (pf : Portfolio) (ops : List LedgerOp) :
    (reset_portfolio (applyOps pf ops)).cash = pf.initial_cash ∧
    (reset_portfolio (applyOps pf ops)).positions = [] ∧
    (reset_portfolio (applyOps pf ops)).stats = Stats.zero :=
  ⟨by simp [reset_portfolio, applyOps_initial_cash], rfl, rfl⟩

/-- C1 (code bug): casting LUMOS — the documented activation command — while
the engine is INACTIVE is rejected by the `not self.running` guard at the
top of `cast_spell` before the spell table is consulted, so the engine
stays INACTIVE; the code's own failure message ("Cast Lumos to activate!")
and demo.py's activation sequence expect exactly this cast to succeed.
Evaluated here at a fresh engine with a valid priced symbol: the result is
the EngineInactive failure and the engine state (still `running = false`)
is unchanged. -/
theorem C1_lumos_rejected_while_inactive :
    (cast_spell initialEngine [("bitcoin", 50000)] "LUMOS" "bitcoin" 0 none).1 =
      ⟨false, SpellOutcome.EngineInactive⟩ ∧
    (cast_spell initialEngine [("bitcoin", 50000)] "LUMOS" "bitcoin" 0 none).2 =
      initialEngine := by
  constructor <;> rfl

/-- C2 counterexample: with the engine ACTIVE, the fresh 10000-cash ledger
and the default risk limits, dispatching open-short for bitcoin, quantity
1.0 at price 50000.00 does NOT succeed: the Risk Gate's SHORT leverage
check computes `notional / (notional * 0.1) = 10.0 > max_leverage = 3.0`
and blocks the command; the ledger is never reached and cash stays
10000. -/
theorem C2_short_dispatch_blocked :
    (cast_spell initialEngine.start [("bitcoin", 50000)] "EXPECTO_SHORT"
        "bitcoin" 1 none).1 =
      ⟨false, SpellOutcome.RiskBlocked RiskReason.LeverageExceedsLimit⟩ ∧
    (cast_spell initialEngine.start [("bitcoin", 50000)] "EXPECTO_SHORT"
        "bitcoin" 1 none).2.portfolio = initialPortfolio := by
  constructor <;>
    norm_num [cast_spell, initialEngine, TradingEngine.start,
      show spellOfName "EXPECTO_SHORT" = some Spell.EXPECTO_SHORT from rfl,
      show get_price [("bitcoin", (50000 : ℚ))] "bitcoin" = some 50000 from rfl,
      runSpell, cast_expecto_short, check_position_limit, MARGIN_RATE,
      show List.lookup (lowerString "bitcoin") defaultRiskManager.symbol_limits =
        some ⟨1, 50000⟩ from rfl,
      show defaultRiskManager.max_leverage = 3 from rfl]

/-- C2 (amended): at the Position Ledger level the scenario holds exactly as
stated: open-short bitcoin 1.0 at 50000.00 from cash 10000.00 requires
margin 5000.00 ≤ cash, succeeds, and leaves cash 5000.00; closing all
bitcoin positions at 45000.00 realizes P&L 5000.00 and refunds the margin,
returning cash to 10000.00. (The dispatch-level claim fails; see the
counterexample.) -/
theorem C2_ledger_short_scenario :
    (open_short_position initialPortfolio "bitcoin" 1 50000).1 =
      OpenResult.opened 0 ∧
    (open_short_position initialPortfolio "bitcoin" 1 50000).2.cash = 5000 ∧
    (close_positions (open_short_position initialPortfolio "bitcoin" 1 50000).2
        "bitcoin" TypeFilter.ALL 45000).1 =
      CloseResult.closed [⟨0, PositionType.SHORT, 1, 50000, 45000, 5000⟩] 1 5000 ∧
    (close_positions (open_short_position initialPortfolio "bitcoin" 1 50000).2
        "bitcoin" TypeFilter.ALL 45000).2.cash = 10000 := by
  refine ⟨?_, ?_, ?_, ?_⟩ <;>
    norm_num [close_positions, open_short_position, initialPortfolio,
      MARGIN_RATE, addPosition, setSymbol, List.lookup, shouldClose,
      TypeFilter.matches, pnlOf, cashReturnOf, closeOne]

/-- The spell handlers never touch the session counters: only the tail of
`cast_spell` does (trading_engine.py lines 105-110). -/
lemma runSpell_counters (spell : Spell) (eng : TradingEngine) (symbol : String)
    (amount price : ℚ) (kw : Option TypeFilter) :
    (runSpell spell eng symbol amount price kw).2.total_trades =
      eng.total_trades ∧
    (runSpell spell eng symbol amount price kw).2.successful_trades =
      eng.successful_trades ∧
    (runSpell spell eng symbol amount price kw).2.failed_trades =
      eng.failed_trades := by
  cases spell <;>
    simp only [runSpell, cast_expecto_long, cast_expecto_short,
      cast_finite_incantatem, cast_lumos, cast_nox, TradingEngine.start,
      TradingEngine.stop] <;>
    (repeat' split) <;> simp

/-- C7 counterexample: on the EngineInactive path the session counters are
NOT updated. Dispatching open-long on a fresh (INACTIVE) engine with a
valid priced symbol fails, yet the engine state — counters included — is
exactly the initial one (total command count stays 0 instead of
increasing to 1). -/
theorem C7_inactive_counters_unchanged :
    (cast_spell initialEngine [("bitcoin", 50000)] "EXPECTO_LONG"
        "bitcoin" 1 none).1.success = false ∧
    (cast_spell initialEngine [("bitcoin", 50000)] "EXPECTO_LONG"
        "bitcoin" 1 none).2 = initialEngine := by
  constructor <;> rfl

/-- C7 (amended): the session counters are updated only for commands that
reach a spell handler. If the engine is INACTIVE, the spell name is
unknown, or the price lookup fails (no quote, or a zero quote, both falsy
in the source), `cast_spell` returns early and the engine state — counters
included — is unchanged. Once a handler runs, the total command count
increases by exactly 1 and exactly one of the succeeded/failed counts
increases by 1. -/
theorem C7_session_counters (eng : TradingEngine) (prices : List (String × ℚ))
    (spell_name symbol : String) (amount : ℚ) (kw : Option TypeFilter) :
    ((eng.running = false ∨ spellOfName spell_name = none ∨
        get_price prices symbol = none ∨ get_price prices symbol = some 0) →
      (cast_spell eng prices spell_name symbol amount kw).2 = eng) ∧
    (eng.running = true → spellOfName spell_name ≠ none →
      get_price prices symbol ≠ none → get_price prices symbol ≠ some 0 →
      (cast_spell eng prices spell_name symbol amount kw).2.total_trades =
        eng.total_trades + 1 ∧
      ((cast_spell eng prices spell_name symbol amount kw).1.success = true →
        (cast_spell eng prices spell_name symbol amount kw).2.successful_trades =
          eng.successful_trades + 1 ∧
        (cast_spell eng prices spell_name symbol amount kw).2.failed_trades =
          eng.failed_trades) ∧
      ((cast_spell eng prices spell_name symbol amount kw).1.success = false →
        (cast_spell eng prices spell_name symbol amount kw).2.successful_trades =
          eng.successful_trades ∧
        (cast_spell eng prices spell_name symbol amount kw).2.failed_trades =
          eng.failed_trades + 1)) := by
  constructor
  · intro hdisj
    cases hr : eng.running with
    | false => simp [cast_spell, hr]
    | true =>
      rcases hdisj with h | h | h | h
      · rw [hr] at h; exact absurd h (by simp)
      · simp [cast_spell, hr, h]
      · cases hs : spellOfName spell_name with
        | none => simp [cast_spell, hr, hs]
        | some s => simp [cast_spell, hr, hs, h]
      · cases hs : spellOfName spell_name with
        | none => simp [cast_spell, hr, hs]
        | some s => simp [cast_spell, hr, hs, h]
  · intro hr hs hp h0
    obtain ⟨s, hs1⟩ := Option.ne_none_iff_exists'.mp hs
    obtain ⟨p, hp1⟩ := Option.ne_none_iff_exists'.mp hp
    have hpz : ¬ (p = 0) := by
      intro hq
      exact h0 (by rw [hp1, hq])
    have hrs := runSpell_counters s eng symbol amount p kw
    refine ⟨?_, ?_, ?_⟩
    · simp [cast_spell, hr, hs1, hp1, hpz, hrs.1]
    · intro hsucc
      rw [cast_spell] at hsucc ⊢
      simp [hr, hs1, hp1, hpz] at hsucc ⊢
      simp [hsucc, hrs.2.1, hrs.2.2]
    · intro hsucc
      rw [cast_spell] at hsucc ⊢
      simp [hr, hs1, hp1, hpz] at hsucc ⊢
      simp [hsucc, hrs.2.1, hrs.2.2]

/-- Witness for C7 at concrete inputs: the INACTIVE engine is returned
unchanged, and the same command on the activated engine increments the
total and succeeded counters. -/
theorem C7_session_counters_witness :
    (cast_spell initialEngine [("bitcoin", (2000 : ℚ))] "EXPECTO_LONG"
        "bitcoin" 1 none).2 = initialEngine ∧
    (cast_spell initialEngine.start [("bitcoin", (2000 : ℚ))] "EXPECTO_LONG"
        "bitcoin" 1 none).2.total_trades = initialEngine.start.total_trades + 1 :=
  ⟨(C7_session_counters initialEngine [("bitcoin", (2000 : ℚ))] "EXPECTO_LONG"
      "bitcoin" 1 none).1 (Or.inl rfl),
   ((C7_session_counters initialEngine.start [("bitcoin", (2000 : ℚ))]
      "EXPECTO_LONG" "bitcoin" 1 none).2 rfl
      (by simp [show spellOfName "EXPECTO_LONG" = some Spell.EXPECTO_LONG from rfl])
      (by simp [show get_price [("bitcoin", (2000 : ℚ))] "bitcoin" =
        some 2000 from rfl])
      (by norm_num [show get_price [("bitcoin", (2000 : ℚ))] "bitcoin" =
        some 2000 from rfl])).1⟩

/-- Every per-symbol limit entry of the default Risk Gate configuration —
and the default fallback — has a nonnegative `max_value`. -/
lemma default_max_value_nonneg (s : String) :
    0 ≤ ((List.lookup s defaultRiskManager.symbol_limits).getD
      defaultRiskManager.default_limits).max_value := by
  simp only [defaultRiskManager, List.lookup]
  repeat' split
  all_goals norm_num [Option.getD]

/-- C10: a SHORT-side `check_position_limit` call with zero notional
(`amount * price = 0`) that passes the amount limit reaches the leverage
line, whose denominator `position_value * 0.1` is zero; the resulting
`ZeroDivisionError` is caught by the `except` branch and the call returns
`allowed = False` with the risk-check-error reason — it never raises to
its caller (the embedded function is total). -/
theorem C10_short_zero_notional (symbol : String) (amount price : ℚ)
    (hzero : amount * price = 0)
    (hamt : amount ≤ ((List.lookup (lowerString symbol)
        defaultRiskManager.symbol_limits).getD
        defaultRiskManager.default_limits).max_amount) :
    check_position_limit defaultRiskManager symbol PositionType.SHORT
        amount price = ⟨false, RiskReason.RiskCheckError⟩ := by
  have h1 : ¬ (amount > ((List.lookup (lowerString symbol)
      defaultRiskManager.symbol_limits).getD
      defaultRiskManager.default_limits).max_amount) := not_lt.mpr hamt
  have h2 : ¬ (amount * price > ((List.lookup (lowerString symbol)
      defaultRiskManager.symbol_limits).getD
      defaultRiskManager.default_limits).max_value) := by
    rw [hzero]
    exact not_lt.mpr (default_max_value_nonneg _)
  have h3 : amount * price * MARGIN_RATE = 0 := by
    rw [hzero, zero_mul]
  simp only [check_position_limit]
  rw [if_neg h1, if_neg h2]
  simp [h3]

/-- Witness for C10: amount 0 of bitcoin at price 50000 — zero notional,
amount within bitcoin's max_amount of 1.0 — yields the caught-error
denial. -/
theorem C10_short_zero_notional_witness :
    (0 : ℚ) * 50000 = 0 ∧
    check_position_limit defaultRiskManager "bitcoin" PositionType.SHORT
        0 50000 = ⟨false, RiskReason.RiskCheckError⟩ :=
  ⟨by norm_num,
   C10_short_zero_notional "bitcoin" 0 50000 (by norm_num)
     (by norm_num [show (List.lookup (lowerString "bitcoin")
        defaultRiskManager.symbol_limits =
          some (SymbolLimits.mk 1 50000)) from rfl])⟩

/-- Spec-side definition, written from the spec's words for `mark_to_market`:
"total account value = cash + Σ over OPEN positions of (LONG:
quantity*current_price; SHORT: (entry_price-current_price)*quantity)" —
here just the Σ part, with `priceOf` the symbol-to-price mapping. To be
compared with the source-side `get_portfolio_value`. -/
def openValueSpec (priceOf : String → ℚ)
    (ps : List (String × List Position)) : ℚ :=
  (ps.map fun e =>
    ((e.2.filter fun p => p.status == PositionStatus.OPEN).map fun p =>
      if p.ptype = PositionType.LONG then p.amount * priceOf e.1
      else (p.entry_price - priceOf e.1) * p.amount).sum).sum

lemma symbolValue_foldl (cp : ℚ) (l : List Position) (a : ℚ) :
    l.foldl
      (fun acc p =>
        if p.status == PositionStatus.OPEN then
          match p.ptype with
          | .LONG => acc + p.amount * cp
          | .SHORT => acc + (p.entry_price - cp) * p.amount
        else acc)
      a =
    a + ((l.filter fun p => p.status == PositionStatus.OPEN).map fun p =>
      if p.ptype = PositionType.LONG then p.amount * cp
      else (p.entry_price - cp) * p.amount).sum := by
  induction l generalizing a with
  | nil => simp
  | cons p rest ih =>
    by_cases hst : p.status = PositionStatus.OPEN
    · cases hp : p.ptype <;>
        (simp [hst, hp]
         (try simp at ih)
         rw [ih]
         ring)
    · simp [hst]
      (try simp at ih)
      rw [ih]

lemma symbolValue_eq (cp : ℚ) (l : List Position) :
    symbolValue cp l =
      ((l.filter fun p => p.status == PositionStatus.OPEN).map fun p =>
        if p.ptype = PositionType.LONG then p.amount * cp
        else (p.entry_price - cp) * p.amount).sum := by
  simp only [symbolValue]
  rw [symbolValue_foldl]
  rw [zero_add]

lemma portfolio_value_foldl (prices : List (String × ℚ))
    (priceOf : String → ℚ) (ps : List (String × List Position))
    (hcover : ∀ e ∈ ps, List.lookup e.1 prices = some (priceOf e.1))
    (a : ℚ) :
    ps.foldl
      (fun acc e =>
        match List.lookup e.1 prices with
        | some cp => acc + symbolValue cp e.2
        | none => acc)
      a = a + openValueSpec priceOf ps := by
  induction ps generalizing a with
  | nil => simp [openValueSpec]
  | cons e rest ih =>
    have he := hcover e (List.mem_cons_self e rest)
    simp only [List.foldl, he]
    rw [ih (fun x hx => hcover x (List.mem_cons_of_mem e hx))]
    simp [openValueSpec, symbolValue_eq, add_assoc]

/-- C8: for every ledger state and every price mapping that quotes each
symbol holding positions, `get_portfolio_value` returns total account
value = cash + Σ over OPEN positions of (LONG: `quantity*current_price`;
SHORT: `(entry_price-current_price)*quantity`), and mutates nothing: the
ledger state is returned identical. -/
theorem C8_mark_to_market (pf : Portfolio) (prices : List (String × ℚ))
    (priceOf : String → ℚ)
    (hcover : ∀ e ∈ pf.positions, List.lookup e.1 prices = some (priceOf e.1)) :
    (get_portfolio_value pf prices).1.total_value =
      pf.cash + openValueSpec priceOf pf.positions ∧
    (get_portfolio_value pf prices).2 = pf := by
  refine ⟨?_, rfl⟩
  simp only [get_portfolio_value]
  exact portfolio_value_foldl prices priceOf pf.positions hcover pf.cash

/-- Witness ledger for C8: one OPEN LONG and one CLOSED bitcoin position
plus one OPEN SHORT ethereum position. -/
def wMarkLedger : Portfolio :=
  { positions :=
      [("bitcoin",
        [⟨0, .LONG, 1, 2000, .OPEN, none, none⟩,
         ⟨1, .LONG, 2, 1800, .CLOSED, some 1900, some 200⟩]),
       ("ethereum", [⟨2, .SHORT, 3, 1500, .OPEN, none, none⟩])],
    cash := 1000, initial_cash := 10000, stats := Stats.zero, next_id := 3 }

/-- Witness price function for C8. -/
def wPriceOf : String → ℚ :=
  fun s => if s = "bitcoin" then 2100 else 1400

/-- Witness for C8 at the concrete ledger and quote table: the coverage
hypothesis holds and the mark-to-market equation follows. -/
theorem C8_mark_to_market_witness :
    (∀ e ∈ wMarkLedger.positions,
      List.lookup e.1 [("bitcoin", (2100 : ℚ)), ("ethereum", 1400)] =
        some (wPriceOf e.1)) ∧
    (get_portfolio_value wMarkLedger
        [("bitcoin", (2100 : ℚ)), ("ethereum", 1400)]).1.total_value =
      wMarkLedger.cash + openValueSpec wPriceOf wMarkLedger.positions ∧
    (get_portfolio_value wMarkLedger
        [("bitcoin", (2100 : ℚ)), ("ethereum", 1400)]).2 = wMarkLedger :=
  ⟨by decide,
   C8_mark_to_market wMarkLedger [("bitcoin", (2100 : ℚ)), ("ethereum", 1400)]
     wPriceOf (by decide)⟩

/-- C5: for every successful `close_positions` call and the OPEN positions
it closes (those matching the filter): each LONG realizes P&L
`(current_price - entry_price) * quantity` and credits cash
`quantity * current_price`; each SHORT realizes
`(entry_price - current_price) * quantity` and credits only the original
margin `quantity * entry_price * 0.10`; the total trade count grows by the
number of closed positions, the win count by those with P&L > 0 and the
loss count by the rest, and every position's P&L is added to the total
realized P&L. -/
theorem C5_close_accounting (pf : Portfolio) (symbol : String)
    (filt : TypeFilter) (price : ℚ) (l : List Position)
    (hl : List.lookup symbol pf.positions = some l)
    (hne : l.filter (shouldClose filt) ≠ []) :
    (close_positions pf symbol filt price).1 =
      CloseResult.closed
        ((l.filter (shouldClose filt)).map fun p =>
          ⟨p.trade_id, p.ptype, p.amount, p.entry_price, price,
            if p.ptype = PositionType.LONG then (price - p.entry_price) * p.amount
            else (p.entry_price - price) * p.amount⟩)
        ((l.filter (shouldClose filt)).map fun p => p.amount).sum
        ((l.filter (shouldClose filt)).map fun p =>
          if p.ptype = PositionType.LONG then (price - p.entry_price) * p.amount
          else (p.entry_price - price) * p.amount).sum ∧
    (close_positions pf symbol filt price).2.cash =
      pf.cash + ((l.filter (shouldClose filt)).map fun p =>
        if p.ptype = PositionType.LONG then p.amount * price
        else p.amount * p.entry_price * (1 / 10)).sum ∧
    (close_positions pf symbol filt price).2.stats.total_trades =
      pf.stats.total_trades + (l.filter (shouldClose filt)).length ∧
    (close_positions pf symbol filt price).2.stats.winning_trades =
      pf.stats.winning_trades + ((l.filter (shouldClose filt)).filter fun p =>
        decide (0 < if p.ptype = PositionType.LONG
          then (price - p.entry_price) * p.amount
          else (p.entry_price - price) * p.amount)).length ∧
    (close_positions pf symbol filt price).2.stats.losing_trades =
      pf.stats.losing_trades + ((l.filter (shouldClose filt)).filter fun p =>
        decide ((if p.ptype = PositionType.LONG
          then (price - p.entry_price) * p.amount
          else (p.entry_price - price) * p.amount) ≤ 0)).length ∧
    (close_positions pf symbol filt price).2.stats.total_pnl =
      pf.stats.total_pnl + ((l.filter (shouldClose filt)).map fun p =>
        if p.ptype = PositionType.LONG then (price - p.entry_price) * p.amount
        else (p.entry_price - price) * p.amount).sum := by
  have hl0 : l ≠ [] := by
    intro h
    rw [h] at hne
    exact hne rfl
  have hE : l.isEmpty = false := isEmpty_false_of_ne hl0
  have hfE : (l.filter (shouldClose filt)).isEmpty = false :=
    isEmpty_false_of_ne hne
  have hpnl : ∀ p : Position, pnlOf p price =
      if p.ptype = PositionType.LONG then (price - p.entry_price) * p.amount
      else (p.entry_price - price) * p.amount := by
    intro p
    cases hp : p.ptype <;> simp [pnlOf, hp]
  have hcash : ∀ p : Position, cashReturnOf p price =
      if p.ptype = PositionType.LONG then p.amount * price
      else p.amount * p.entry_price * (1 / 10) := by
    intro p
    cases hp : p.ptype <;> simp [cashReturnOf, hp, MARGIN_RATE]
  simp only [close_positions, hl, hE, hfE]
  refine ⟨?_, ?_, ?_, ?_, ?_, ?_⟩ <;> simp [hpnl, hcash]

/-- Witness ledger for C5: a single OPEN LONG bitcoin position bought at
2000. -/
def wCloseLedger : Portfolio :=
  { positions := [("bitcoin", [⟨0, .LONG, 1, 2000, .OPEN, none, none⟩])],
    cash := 8000, initial_cash := 10000, stats := Stats.zero, next_id := 1 }

/-- Witness for C5 at the concrete ledger, closing all bitcoin positions at
2500: cash is credited the LONG proceeds and the trade counter grows by
the number of closed positions. -/
theorem C5_close_accounting_witness :
    (close_positions wCloseLedger "bitcoin" TypeFilter.ALL 2500).2.cash =
      wCloseLedger.cash +
        (((List.filter (shouldClose TypeFilter.ALL)
            [⟨0, .LONG, 1, 2000, .OPEN, none, none⟩]).map fun p =>
          if p.ptype = PositionType.LONG then p.amount * (2500 : ℚ)
          else p.amount * p.entry_price * (1 / 10)).sum) ∧
    (close_positions wCloseLedger "bitcoin" TypeFilter.ALL 2500).2.stats.total_trades =
      wCloseLedger.stats.total_trades +
        (List.filter (shouldClose TypeFilter.ALL)
          [⟨0, .LONG, 1, 2000, .OPEN, none, none⟩]).length :=
  ⟨(C5_close_accounting wCloseLedger "bitcoin" TypeFilter.ALL 2500
      [⟨0, .LONG, 1, 2000, .OPEN, none, none⟩] rfl (by decide)).2.1,
   (C5_close_accounting wCloseLedger "bitcoin" TypeFilter.ALL 2500
      [⟨0, .LONG, 1, 2000, .OPEN, none, none⟩] rfl (by decide)).2.2.1⟩

/-- C6: `close_positions` returns a NoMatchingPositions-style structured
failure exactly when no OPEN position of the symbol satisfies the filter,
and on failure the ledger state is unchanged; moreover after a successful
close the closed positions stay in the book with status CLOSED and are
excluded from every later matching, so repeating the same call fails
without changing state. -/
theorem C6_close_no_match (pf : Portfolio) (symbol : String)
    (filt : TypeFilter) (price : ℚ) :
    ((close_positions pf symbol filt price).1.success = false ↔
      ((List.lookup symbol pf.positions).getD []).filter (shouldClose filt) = []) ∧
    ((close_positions pf symbol filt price).1.success = false →
      (close_positions pf symbol filt price).2 = pf) ∧
    ((close_positions pf symbol filt price).1.success = true →
      (close_positions (close_positions pf symbol filt price).2 symbol filt
          price).1.success = false ∧
      (close_positions (close_positions pf symbol filt price).2 symbol filt
          price).2 = (close_positions pf symbol filt price).2) := by
  cases hl : List.lookup symbol pf.positions with
  | none =>
    simp [close_positions, hl, CloseResult.success]
  | some l =>
    by_cases hl0 : l = []
    · subst hl0
      simp [close_positions, hl, CloseResult.success]
    · have hE : l.isEmpty = false := isEmpty_false_of_ne hl0
      by_cases hf : l.filter (shouldClose filt) = []
      · simp [close_positions, hl, hE, hf, CloseResult.success]
      · have hfE : (l.filter (shouldClose filt)).isEmpty = false :=
          isEmpty_false_of_ne hf
        have hmap0 : (l.map fun p =>
            if shouldClose filt p then closeOne price p else p) ≠ [] := by
          intro h
          exact hl0 (List.map_eq_nil_iff.mp h)
        have hmapE : (l.map fun p =>
            if shouldClose filt p then closeOne price p else p).isEmpty = false :=
          isEmpty_false_of_ne hmap0
        have hlook2 : List.lookup symbol
            (setSymbol pf.positions symbol
              (l.map fun p =>
                if shouldClose filt p then closeOne price p else p)) =
            some (l.map fun p =>
              if shouldClose filt p then closeOne price p else p) :=
          lookup_setSymbol pf.positions symbol l _ hl
        have hfilter2 := filter_shouldClose_after_close filt price l
        constructor
        · simp [close_positions, hl, hE, hfE, CloseResult.success, hf]
        · constructor
          · simp [close_positions, hl, hE, hfE, CloseResult.success]
          · intro _
            constructor
            · simp [close_positions, hl, hE, hfE, hlook2, hmapE, hfilter2,
                CloseResult.success]
            · simp [close_positions, hl, hE, hfE, hlook2, hmapE, hfilter2,
                CloseResult.success]

/-- Witness for C6 at concrete inputs: on the one-open-LONG ledger, closing
all bitcoin positions succeeds, and by the theorem the repeated identical
call fails and leaves the post-close state untouched. -/
theorem C6_close_no_match_witness :
    (close_positions
        (close_positions wCloseLedger "bitcoin" TypeFilter.ALL 2500).2
        "bitcoin" TypeFilter.ALL 2500).1.success = false ∧
    (close_positions
        (close_positions wCloseLedger "bitcoin" TypeFilter.ALL 2500).2
        "bitcoin" TypeFilter.ALL 2500).2 =
      (close_positions wCloseLedger "bitcoin" TypeFilter.ALL 2500).2 :=
  (C6_close_no_match wCloseLedger "bitcoin" TypeFilter.ALL 2500).2.2
    (by decide)

end ExpectoPatronum
